import Mathlib

/-!
Shallow embedding of the x402 facilitator service (src/index.ts).

The service is a single Express application. We embed the four behavioural
request handlers: POST /verify, POST /settle, GET /supported and
GET /health/rpc. External collaborators (the sf-x402 library: schema parsing,
client and signer construction, verify, settle, block-number probing) are
modelled as black-box oracles collected in the Externals structure; each
fallible asynchronous operation returns Except JsThrown. Wall-clock
timestamps are abstracted: the latency measured for a probe is given by the
elapsedMs oracle, and ISO timestamps in response bodies are omitted since no
handler decision depends on them. The verify and settle handlers also return
the ordered list of network-touching calls they made, so that claims about
what is provisioned, in which order, and with which RPC endpoint can be
stated and proved.
-/

/-- A value thrown by JavaScript code: either an Error object, carrying a
message and a stack trace, or an arbitrary non-Error value. -/
inductive JsThrown where
  | errorObj (message : String) (stack : String)
  | nonError (value : String)
deriving DecidableEq

/-- The message a catch site extracts from a thrown value, following the
pattern used throughout index.ts:
error instanceof Error ? error.message : fallback. -/
def JsThrown.messageOr (fallback : String) : JsThrown → String
  | .errorObj m _ => m
  | .nonError _ => fallback

/-- Parsed payment requirements. The handlers inspect only the network
field; the scheme and the remaining schema fields are carried opaquely. -/
structure PaymentRequirements where
  network : String
  scheme : String
  rest : String
deriving DecidableEq

/-- Parsed payment payload, opaque to the routing layer. -/
structure PaymentPayload where
  raw : String
deriving DecidableEq

/-- A read-only connected client produced by createConnectedClient. -/
structure ConnectedClient where
  clientId : String
deriving DecidableEq

/-- A signing identity produced by createSigner. -/
structure Signer where
  address : String
deriving DecidableEq

/-- Opaque outcome of the external verify operation. -/
structure VerifyResponse where
  raw : String
deriving DecidableEq

/-- Outcome of the external settle operation; the fields are the ones the
settle handler reads when logging the response. -/
structure SettleResponse where
  success : Bool
  transaction : String
  errorReason : Option String
  network : String
  payer : Option String
deriving DecidableEq

/-- The svmConfig part of the X402Config value built at startup. -/
structure SvmConfig where
  rpcUrl : String
deriving DecidableEq

/-- The evmConfig part of the X402Config value: a map from network
identifier to a custom RPC endpoint, kept as an association list. -/
structure EvmConfig where
  rpcUrls : List (String × String)
deriving DecidableEq

/-- The configuration object handed to the external library. -/
structure X402Config where
  svmConfig : Option SvmConfig
  evmConfig : Option EvmConfig
deriving DecidableEq

/-- The environment variables the service reads at startup. An empty string
models an unset variable, matching JavaScript truthiness on strings. -/
structure Env where
  EVM_PRIVATE_KEY : String
  SVM_PRIVATE_KEY : String
  SVM_RPC_URL : String
  SEPOLIA_RPC_URL : String
  FILECOIN_CALIBRATION_RPC_URL : String
deriving DecidableEq

/-- Construction of the x402Config value from the environment, following the
conditional-spread expression at the top of index.ts: the config exists only
if at least one RPC URL is set; svmConfig only if SVM_RPC_URL is set;
evmConfig only if a Sepolia or Filecoin Calibration URL is set, and its
rpcUrls map contains exactly the networks whose URL is set. -/
def mkX402Config (env : Env) : Option X402Config :=
  if env.SVM_RPC_URL ≠ "" ∨ env.SEPOLIA_RPC_URL ≠ "" ∨
      env.FILECOIN_CALIBRATION_RPC_URL ≠ "" then
    some
      { svmConfig :=
          if env.SVM_RPC_URL ≠ "" then some { rpcUrl := env.SVM_RPC_URL } else none
        evmConfig :=
          if env.SEPOLIA_RPC_URL ≠ "" ∨ env.FILECOIN_CALIBRATION_RPC_URL ≠ "" then
            some { rpcUrls :=
              (if env.SEPOLIA_RPC_URL ≠ "" then
                [("sepolia", env.SEPOLIA_RPC_URL)] else []) ++
              (if env.FILECOIN_CALIBRATION_RPC_URL ≠ "" then
                [("filecoin-calibration", env.FILECOIN_CALIBRATION_RPC_URL)] else []) }
          else none }
  else none

/-- The external collaborators of the service, modelled as oracles: the
supported-network registries and the six operations imported from the
sf-x402 library, plus the per-probe elapsed time. -/
structure Externals where
  SupportedEVMNetworks : List String
  SupportedSVMNetworks : List String
  parsePaymentRequirements : String → Except JsThrown PaymentRequirements
  parsePaymentPayload : String → Except JsThrown PaymentPayload
  createConnectedClient : String → Option String → Except JsThrown ConnectedClient
  createSigner : String → String → Option String → Except JsThrown Signer
  verify : Sum Signer ConnectedClient → PaymentPayload → PaymentRequirements →
    Option X402Config → Except JsThrown VerifyResponse
  settle : Signer → PaymentPayload → PaymentRequirements →
    Option X402Config → Except JsThrown SettleResponse
  getBlockNumber : ConnectedClient → Except JsThrown Int
  isSvmSignerWallet : Signer → Bool
  elapsedMs : String → Nat

/-- One entry of the /health/rpc checks map. -/
structure CheckEntry where
  healthy : Bool
  latency : Option Nat
  error : Option String
deriving DecidableEq

/-- The extra field of an announced payment kind. -/
structure PaymentKindExtra where
  feePayer : Option String
deriving DecidableEq

/-- One entry of the GET /supported kinds list. -/
structure SupportedPaymentKind where
  x402Version : Nat
  scheme : String
  network : String
  extra : Option PaymentKindExtra
deriving DecidableEq

/-- The JSON body of a response, by shape. -/
inductive RespBody where
  | errorBody (error : String)
  | verifyBody (r : VerifyResponse)
  | settleBody (r : SettleResponse)
  | healthBody (status : String) (checks : List (String × CheckEntry))
  | supportedBody (kinds : List SupportedPaymentKind)
deriving DecidableEq

/-- An HTTP response: status code and body. -/
structure HttpResponse where
  status : Nat
  body : RespBody
deriving DecidableEq

/-- A network-touching call made by a request handler. Provisioning events
record the network, the secret key where one is passed, and the RPC URL
argument actually handed to the constructor. -/
inductive NetEvent where
  | provisionClient (network : String) (rpcUrl : Option String)
  | provisionSigner (network : String) (secretKey : String) (rpcUrl : Option String)
  | invokeVerify
  | invokeSettle
deriving DecidableEq

/-- Whether an event is the provisioning of a read-only connected client. -/
def NetEvent.isProvisionClient : NetEvent → Bool
  | .provisionClient _ _ => true
  | _ => false

/-- Whether an event is the provisioning of a signing identity. -/
def NetEvent.isProvisionSigner : NetEvent → Bool
  | .provisionSigner _ _ _ => true
  | _ => false

/-- The raw request body of POST /verify and POST /settle: the two unparsed
fields, to be validated against their schemas by the handler. -/
structure RequestBody where
  paymentPayload : String
  paymentRequirements : String
deriving DecidableEq

/-- The optional-chain lookup x402Config?.evmConfig?.rpcUrls?.[network]. -/
def evmRpcUrlFor (cfg : Option X402Config) (network : String) : Option String :=
  match cfg with
  | none => none
  | some c =>
    match c.evmConfig with
    | none => none
    | some ec => ec.rpcUrls.lookup network

/-- The body of the POST /verify handler after both schema parses have
succeeded: family dispatch, credential check, provisioning and the external
verify call, with every fallible step caught and surfaced as a 400 response
carrying the message (fallback "Invalid request" for non-Error throws). -/
def verifyDispatch (ext : Externals) (env : Env)
    (paymentRequirements : PaymentRequirements) (paymentPayload : PaymentPayload) :
    HttpResponse × List NetEvent :=
  if ext.SupportedEVMNetworks.contains paymentRequirements.network then
    if env.EVM_PRIVATE_KEY = "" then
      (⟨503, .errorBody "EVM payments not supported"⟩, [])
    else
      let rpcUrl := evmRpcUrlFor (mkX402Config env) paymentRequirements.network
      let ev := NetEvent.provisionClient paymentRequirements.network rpcUrl
      match ext.createConnectedClient paymentRequirements.network rpcUrl with
      | .error e => (⟨400, .errorBody (e.messageOr "Invalid request")⟩, [ev])
      | .ok client =>
        match ext.verify (.inr client) paymentPayload paymentRequirements
            (mkX402Config env) with
        | .error e =>
            (⟨400, .errorBody (e.messageOr "Invalid request")⟩, [ev, .invokeVerify])
        | .ok result => (⟨200, .verifyBody result⟩, [ev, .invokeVerify])
  else if ext.SupportedSVMNetworks.contains paymentRequirements.network then
    if env.SVM_PRIVATE_KEY = "" then
      (⟨503, .errorBody "SVM payments not supported"⟩, [])
    else
      let ev := NetEvent.provisionSigner paymentRequirements.network
        env.SVM_PRIVATE_KEY none
      match ext.createSigner paymentRequirements.network env.SVM_PRIVATE_KEY none with
      | .error e => (⟨400, .errorBody (e.messageOr "Invalid request")⟩, [ev])
      | .ok signer =>
        match ext.verify (.inl signer) paymentPayload paymentRequirements
            (mkX402Config env) with
        | .error e =>
            (⟨400, .errorBody (e.messageOr "Invalid request")⟩, [ev, .invokeVerify])
        | .ok result => (⟨200, .verifyBody result⟩, [ev, .invokeVerify])
  else
    (⟨400, .errorBody ("Unsupported network: " ++ paymentRequirements.network)⟩, [])

/-- The POST /verify handler: schema validation of requirements then payload
(each failure caught as a 400 with the message), then dispatch. The second
component is the ordered list of network-touching calls performed. -/
def postVerify (ext : Externals) (env : Env) (body : RequestBody) :
    HttpResponse × List NetEvent :=
  match ext.parsePaymentRequirements body.paymentRequirements with
  | .error e => (⟨400, .errorBody (e.messageOr "Invalid request")⟩, [])
  | .ok paymentRequirements =>
    match ext.parsePaymentPayload body.paymentPayload with
    | .error e => (⟨400, .errorBody (e.messageOr "Invalid request")⟩, [])
    | .ok paymentPayload => verifyDispatch ext env paymentRequirements paymentPayload

/-- The body of the POST /settle handler after both schema parses have
succeeded. The EVM branch provisions a signer from the EVM private key with
the per-network RPC override; the SVM branch provisions a signer from the
SVM private key with no override. Failures are caught as 400 responses with
the message (fallback "Settlement failed" for non-Error throws). -/
def settleDispatch (ext : Externals) (env : Env)
    (paymentRequirements : PaymentRequirements) (paymentPayload : PaymentPayload) :
    HttpResponse × List NetEvent :=
  if ext.SupportedEVMNetworks.contains paymentRequirements.network then
    if env.EVM_PRIVATE_KEY = "" then
      (⟨503, .errorBody "EVM payments not supported"⟩, [])
    else
      let rpcUrl := evmRpcUrlFor (mkX402Config env) paymentRequirements.network
      let ev := NetEvent.provisionSigner paymentRequirements.network
        env.EVM_PRIVATE_KEY rpcUrl
      match ext.createSigner paymentRequirements.network env.EVM_PRIVATE_KEY rpcUrl with
      | .error e => (⟨400, .errorBody (e.messageOr "Settlement failed")⟩, [ev])
      | .ok signer =>
        match ext.settle signer paymentPayload paymentRequirements (mkX402Config env) with
        | .error e =>
            (⟨400, .errorBody (e.messageOr "Settlement failed")⟩, [ev, .invokeSettle])
        | .ok response => (⟨200, .settleBody response⟩, [ev, .invokeSettle])
  else if ext.SupportedSVMNetworks.contains paymentRequirements.network then
    if env.SVM_PRIVATE_KEY = "" then
      (⟨503, .errorBody "SVM payments not supported"⟩, [])
    else
      let ev := NetEvent.provisionSigner paymentRequirements.network
        env.SVM_PRIVATE_KEY none
      match ext.createSigner paymentRequirements.network env.SVM_PRIVATE_KEY none with
      | .error e => (⟨400, .errorBody (e.messageOr "Settlement failed")⟩, [ev])
      | .ok signer =>
        match ext.settle signer paymentPayload paymentRequirements (mkX402Config env) with
        | .error e =>
            (⟨400, .errorBody (e.messageOr "Settlement failed")⟩, [ev, .invokeSettle])
        | .ok response => (⟨200, .settleBody response⟩, [ev, .invokeSettle])
  else
    (⟨400, .errorBody ("Unsupported network: " ++ paymentRequirements.network)⟩, [])

/-- The POST /settle handler: schema validation then dispatch. -/
def postSettle (ext : Externals) (env : Env) (body : RequestBody) :
    HttpResponse × List NetEvent :=
  match ext.parsePaymentRequirements body.paymentRequirements with
  | .error e => (⟨400, .errorBody (e.messageOr "Settlement failed")⟩, [])
  | .ok paymentRequirements =>
    match ext.parsePaymentPayload body.paymentPayload with
    | .error e => (⟨400, .errorBody (e.messageOr "Settlement failed")⟩, [])
    | .ok paymentPayload => settleDispatch ext env paymentRequirements paymentPayload

/-- The eight payment kinds pushed when an EVM private key is configured. -/
def evmSupportedKinds : List SupportedPaymentKind :=
  [⟨1, "exact", "sepolia", none⟩,
   ⟨1, "exact", "base-sepolia", none⟩,
   ⟨1, "exact", "base", none⟩,
   ⟨1, "exact", "mainnet", none⟩,
   ⟨1, "exact", "polygon", none⟩,
   ⟨1, "exact", "avalanche", none⟩,
   ⟨1, "exact", "filecoin", none⟩,
   ⟨1, "exact", "filecoin-calibration", none⟩]

/-- The GET /supported handler. The async handler body has no try/catch, so
a throw from createSigner escapes the handler as a rejected promise,
modelled as Except.error. When the signer is created, the two Solana kinds
are pushed with the feePayer extra field, absent when isSvmSignerWallet is
false. -/
def getSupported (ext : Externals) (env : Env) : Except JsThrown HttpResponse :=
  let kinds := if env.EVM_PRIVATE_KEY ≠ "" then evmSupportedKinds else []
  if env.SVM_PRIVATE_KEY ≠ "" then
    match ext.createSigner "solana-devnet" env.SVM_PRIVATE_KEY none with
    | .error e => .error e
    | .ok signer =>
      let feePayer := if ext.isSvmSignerWallet signer then some signer.address else none
      .ok ⟨200, .supportedBody (kinds ++
        [⟨1, "exact", "solana-devnet", some ⟨feePayer⟩⟩,
         ⟨1, "exact", "solana", some ⟨feePayer⟩⟩])⟩
  else
    .ok ⟨200, .supportedBody kinds⟩

/-- The loop body of the EVM section of GET /health/rpc for one network:
create a connected client on the custom URL, fetch the block number, and
classify; any throw is caught into an unhealthy entry carrying the message
(fallback "Unknown error" for non-Error throws). -/
def evmProbe (ext : Externals) (networkName rpcUrl : String) : CheckEntry :=
  match ext.createConnectedClient networkName (some rpcUrl) with
  | .error e =>
      ⟨false, some (ext.elapsedMs networkName), some (e.messageOr "Unknown error")⟩
  | .ok client =>
    match ext.getBlockNumber client with
    | .error e =>
        ⟨false, some (ext.elapsedMs networkName), some (e.messageOr "Unknown error")⟩
    | .ok blockNumber =>
        ⟨decide (blockNumber > 0), some (ext.elapsedMs networkName), none⟩

/-- The EVM section of GET /health/rpc: iterate the configured rpcUrls map
(when evmConfig exists and the EVM key is set), skipping empty URLs, and
collect one entry per network in order. -/
def evmHealthChecks (ext : Externals) (env : Env) : List (String × CheckEntry) :=
  match mkX402Config env with
  | none => []
  | some cfg =>
    match cfg.evmConfig with
    | none => []
    | some ec =>
      if env.EVM_PRIVATE_KEY ≠ "" then
        ec.rpcUrls.foldl
          (fun checks p =>
            if p.2 = "" then checks
            else checks ++ [(p.1, evmProbe ext p.1 p.2)])
          []
      else []

/-- The SVM section of GET /health/rpc: when SVM_RPC_URL and the SVM key
are both set, attempt signer creation; a throw is caught into an unhealthy
solana-devnet entry; on success an entry is recorded only when the signer
is an SVM signer wallet. -/
def svmHealthCheck (ext : Externals) (env : Env) : List (String × CheckEntry) :=
  if env.SVM_RPC_URL ≠ "" ∧ env.SVM_PRIVATE_KEY ≠ "" then
    match ext.createSigner "solana-devnet" env.SVM_PRIVATE_KEY none with
    | .error e =>
        [("solana-devnet",
          ⟨false, some (ext.elapsedMs "solana-devnet"),
           some (e.messageOr "Unknown error")⟩)]
    | .ok signer =>
      if ext.isSvmSignerWallet signer then
        [("solana-devnet", ⟨true, some (ext.elapsedMs "solana-devnet"), none⟩)]
      else []
  else []

/-- The full checks map assembled by GET /health/rpc. -/
def healthChecks (ext : Externals) (env : Env) : List (String × CheckEntry) :=
  evmHealthChecks ext env ++ svmHealthCheck ext env

/-- The GET /health/rpc handler: the aggregate verdict is healthy, with
status 200, exactly when every recorded entry is healthy, and degraded with
status 503 otherwise. -/
def getHealthRpc (ext : Externals) (env : Env) : HttpResponse :=
  let checks := healthChecks ext env
  let allHealthy := checks.all fun c => c.2.healthy
  ⟨if allHealthy then 200 else 503,
   .healthBody (if allHealthy then "healthy" else "degraded") checks⟩

/-! ### Concrete fixtures used by witnesses and counterexamples -/

/-- A concrete instance of the external collaborators in which every
operation succeeds; the raw request strings "badReq", "badPay", "svmReq" and
"badNet" drive the parse oracles to a validation failure, an SVM network and
an unknown network respectively. -/
def extDemo : Externals where
  SupportedEVMNetworks := ["sepolia", "base-sepolia", "base", "mainnet", "polygon",
    "avalanche", "filecoin", "filecoin-calibration"]
  SupportedSVMNetworks := ["solana-devnet", "solana"]
  parsePaymentRequirements := fun raw =>
    if raw = "badReq" then .error (.errorObj "invalid requirements" "stack1")
    else if raw = "svmReq" then .ok ⟨"solana-devnet", "exact", raw⟩
    else if raw = "badNet" then .ok ⟨"unknown-chain", "exact", raw⟩
    else .ok ⟨"sepolia", "exact", raw⟩
  parsePaymentPayload := fun raw =>
    if raw = "badPay" then .error (.errorObj "invalid payload" "stack2")
    else .ok ⟨raw⟩
  createConnectedClient := fun n _ => .ok ⟨n⟩
  createSigner := fun n _ _ => .ok ⟨String.append "addr-" n⟩
  verify := fun _ _ _ _ => .ok ⟨"verified"⟩
  settle := fun _ _ _ _ => .ok ⟨true, "0xtx", none, "sepolia", some "0xpayer"⟩
  getBlockNumber := fun _ => .ok 100
  isSvmSignerWallet := fun _ => true
  elapsedMs := fun _ => 5

/-- Environment with both family credentials and no RPC overrides. -/
def envBoth : Env := ⟨"evmkey", "svmkey", "", "", ""⟩

/-- Environment with only the EVM credential. -/
def envEvmOnly : Env := ⟨"evmkey", "", "", "", ""⟩

/-- Environment with only the SVM credential. -/
def envSvmOnly : Env := ⟨"", "svmkey", "", "", ""⟩

/-- Environment with both credentials and a custom SVM RPC endpoint. -/
def envSvmRpc : Env := ⟨"evmkey", "svmkey", "http://custom-svm:8899", "", ""⟩

/-- Environment with both credentials, an SVM RPC URL and a Sepolia RPC URL. -/
def envFull : Env := ⟨"evmkey", "svmkey", "http://svm-rpc", "http://sepolia-rpc", ""⟩

/-! ### Helper lemmas -/

/-- When both schema parses succeed, POST /verify reduces to its dispatch. -/
theorem postVerify_parse_ok (ext : Externals) (env : Env) (body : RequestBody)
    (reqs : PaymentRequirements) (payload : PaymentPayload)
    (hreq : ext.parsePaymentRequirements body.paymentRequirements = .ok reqs)
    (hpay : ext.parsePaymentPayload body.paymentPayload = .ok payload) :
    postVerify ext env body = verifyDispatch ext env reqs payload := by
  unfold postVerify
  rw [hreq, hpay]

/-- When both schema parses succeed, POST /settle reduces to its dispatch. -/
theorem postSettle_parse_ok (ext : Externals) (env : Env) (body : RequestBody)
    (reqs : PaymentRequirements) (payload : PaymentPayload)
    (hreq : ext.parsePaymentRequirements body.paymentRequirements = .ok reqs)
    (hpay : ext.parsePaymentPayload body.paymentPayload = .ok payload) :
    postSettle ext env body = settleDispatch ext env reqs payload := by
  unfold postSettle
  rw [hreq, hpay]

/-! ### C2: unsupported network -/

/-- C2: for every verify or settle request whose payment-requirements
network is in neither the EVM nor the SVM registry, the handler returns
HTTP 400 with body error "Unsupported network: network" and performs zero
network-touching calls: the event trace is empty, so no client or signer is
provisioned and the external verify or settle operation is not invoked. -/
theorem c2_unsupported_network (ext : Externals) (env : Env) (body : RequestBody)
    (reqs : PaymentRequirements) (payload : PaymentPayload)
    (hreq : ext.parsePaymentRequirements body.paymentRequirements = .ok reqs)
    (hpay : ext.parsePaymentPayload body.paymentPayload = .ok payload)
    (hevm : ext.SupportedEVMNetworks.contains reqs.network = false)
    (hsvm : ext.SupportedSVMNetworks.contains reqs.network = false) :
    postVerify ext env body =
      (⟨400, .errorBody ("Unsupported network: " ++ reqs.network)⟩, []) ∧
    postSettle ext env body =
      (⟨400, .errorBody ("Unsupported network: " ++ reqs.network)⟩, []) := by
  rw [postVerify_parse_ok ext env body reqs payload hreq hpay,
    postSettle_parse_ok ext env body reqs payload hreq hpay]
  unfold verifyDispatch settleDispatch
  rw [hevm, hsvm]
  simp

/-- Witness for C2 at the concrete network "unknown-chain". -/
theorem c2_unsupported_network_witness :
    postVerify extDemo envBoth ⟨"pay", "badNet"⟩ =
      (⟨400, .errorBody ("Unsupported network: " ++ "unknown-chain")⟩, []) ∧
    postSettle extDemo envBoth ⟨"pay", "badNet"⟩ =
      (⟨400, .errorBody ("Unsupported network: " ++ "unknown-chain")⟩, []) :=
  c2_unsupported_network extDemo envBoth ⟨"pay", "badNet"⟩
    ⟨"unknown-chain", "exact", "badNet"⟩ ⟨"pay"⟩ rfl rfl rfl rfl

/-! ### C3: family credential not configured -/

/-- C3: for every verify or settle request whose network belongs to a family
whose private key is the empty string, the handler returns HTTP 503 with
body error "EVM payments not supported" or "SVM payments not supported" and
an empty event trace, so the response is produced before any client or
signer provisioning is attempted. -/
theorem c3_credentials_not_configured (ext : Externals) (env : Env)
    (body : RequestBody) (reqs : PaymentRequirements) (payload : PaymentPayload)
    (hreq : ext.parsePaymentRequirements body.paymentRequirements = .ok reqs)
    (hpay : ext.parsePaymentPayload body.paymentPayload = .ok payload) :
    (ext.SupportedEVMNetworks.contains reqs.network = true →
      env.EVM_PRIVATE_KEY = "" →
      postVerify ext env body = (⟨503, .errorBody "EVM payments not supported"⟩, []) ∧
      postSettle ext env body = (⟨503, .errorBody "EVM payments not supported"⟩, [])) ∧
    (ext.SupportedEVMNetworks.contains reqs.network = false →
      ext.SupportedSVMNetworks.contains reqs.network = true →
      env.SVM_PRIVATE_KEY = "" →
      postVerify ext env body = (⟨503, .errorBody "SVM payments not supported"⟩, []) ∧
      postSettle ext env body = (⟨503, .errorBody "SVM payments not supported"⟩, [])) := by
  rw [postVerify_parse_ok ext env body reqs payload hreq hpay,
    postSettle_parse_ok ext env body reqs payload hreq hpay]
  constructor
  · intro hin hkey
    unfold verifyDispatch settleDispatch
    rw [hin, hkey]
    simp
  · intro hout hin hkey
    unfold verifyDispatch settleDispatch
    rw [hout, hin, hkey]
    simp

/-- Witness for C3: an EVM-network request with no EVM key, and an
SVM-network request with no SVM key, both at concrete inputs. -/
theorem c3_credentials_not_configured_witness :
    (postVerify extDemo envSvmOnly ⟨"pay", "evmReq"⟩ =
      (⟨503, .errorBody "EVM payments not supported"⟩, []) ∧
     postSettle extDemo envSvmOnly ⟨"pay", "evmReq"⟩ =
      (⟨503, .errorBody "EVM payments not supported"⟩, [])) ∧
    (postVerify extDemo envEvmOnly ⟨"pay", "svmReq"⟩ =
      (⟨503, .errorBody "SVM payments not supported"⟩, []) ∧
     postSettle extDemo envEvmOnly ⟨"pay", "svmReq"⟩ =
      (⟨503, .errorBody "SVM payments not supported"⟩, [])) :=
  ⟨(c3_credentials_not_configured extDemo envSvmOnly ⟨"pay", "evmReq"⟩
      ⟨"sepolia", "exact", "evmReq"⟩ ⟨"pay"⟩ rfl rfl).1 rfl rfl,
   (c3_credentials_not_configured extDemo envEvmOnly ⟨"pay", "svmReq"⟩
      ⟨"solana-devnet", "exact", "svmReq"⟩ ⟨"pay"⟩ rfl rfl).2 rfl rfl rfl⟩

/-! ### C4: schema validation first -/

/-- C4: for every verify or settle request, when schema validation of the
payment requirements fails, or the requirements parse but the payload
validation fails, the handler returns HTTP 400 whose body carries exactly
the validation error message, and the event trace is empty: no client or
signer provisioning and no external verify or settle invocation occurs. -/
theorem c4_malformed_request (ext : Externals) (env : Env) (body : RequestBody)
    (m s : String) :
    (ext.parsePaymentRequirements body.paymentRequirements =
        .error (.errorObj m s) →
      postVerify ext env body = (⟨400, .errorBody m⟩, []) ∧
      postSettle ext env body = (⟨400, .errorBody m⟩, [])) ∧
    (∀ reqs : PaymentRequirements,
      ext.parsePaymentRequirements body.paymentRequirements = .ok reqs →
      ext.parsePaymentPayload body.paymentPayload = .error (.errorObj m s) →
      postVerify ext env body = (⟨400, .errorBody m⟩, []) ∧
      postSettle ext env body = (⟨400, .errorBody m⟩, [])) := by
  constructor
  · intro hreq
    unfold postVerify postSettle
    rw [hreq]
    exact ⟨rfl, rfl⟩
  · intro reqs hreq hpay
    unfold postVerify postSettle
    rw [hreq, hpay]
    exact ⟨rfl, rfl⟩

/-- Witness for C4 at concrete malformed inputs: a failing requirements
parse and a failing payload parse. -/
theorem c4_malformed_request_witness :
    (postVerify extDemo envBoth ⟨"pay", "badReq"⟩ =
      (⟨400, .errorBody "invalid requirements"⟩, []) ∧
     postSettle extDemo envBoth ⟨"pay", "badReq"⟩ =
      (⟨400, .errorBody "invalid requirements"⟩, [])) ∧
    (postVerify extDemo envBoth ⟨"badPay", "evmReq"⟩ =
      (⟨400, .errorBody "invalid payload"⟩, []) ∧
     postSettle extDemo envBoth ⟨"badPay", "evmReq"⟩ =
      (⟨400, .errorBody "invalid payload"⟩, [])) :=
  ⟨(c4_malformed_request extDemo envBoth ⟨"pay", "badReq"⟩
      "invalid requirements" "stack1").1 rfl,
   (c4_malformed_request extDemo envBoth ⟨"badPay", "evmReq"⟩
      "invalid payload" "stack2").2 ⟨"sepolia", "exact", "evmReq"⟩ rfl rfl⟩

/-! ### C1: what verify provisions -/

/-- C1 counterexample: a verify request for the supported SVM network
"solana-devnet" with the SVM credential configured provisions a signing
identity (createSigner with the SVM private key) and no read-only connected
client, contradicting the claim that verify provisions a read client and
never a signing identity. -/
theorem c1_counterexample :
    (postVerify extDemo envBoth ⟨"pay", "svmReq"⟩).2 =
      [NetEvent.provisionSigner "solana-devnet" "svmkey" none,
       NetEvent.invokeVerify] ∧
    ((postVerify extDemo envBoth ⟨"pay", "svmReq"⟩).2.any
      fun e => e.isProvisionClient) = false ∧
    ((postVerify extDemo envBoth ⟨"pay", "svmReq"⟩).2.any
      fun e => e.isProvisionSigner) = true :=
  ⟨rfl, rfl, rfl⟩

/-- C1 amended: on a supported EVM network with the EVM credential
configured, verify provisions a read-only connected client first and the
external verification is invoked only after it, with no signing identity
ever provisioned; on a supported SVM network with the SVM credential
configured, verify instead provisions a signing identity from the SVM
private key before invoking verification. -/
theorem c1_verify_provisioning (ext : Externals) (env : Env) (body : RequestBody)
    (reqs : PaymentRequirements) (payload : PaymentPayload)
    (hreq : ext.parsePaymentRequirements body.paymentRequirements = .ok reqs)
    (hpay : ext.parsePaymentPayload body.paymentPayload = .ok payload) :
    (ext.SupportedEVMNetworks.contains reqs.network = true →
      env.EVM_PRIVATE_KEY ≠ "" →
      (postVerify ext env body).2 =
        [NetEvent.provisionClient reqs.network
          (evmRpcUrlFor (mkX402Config env) reqs.network)] ∨
      (postVerify ext env body).2 =
        [NetEvent.provisionClient reqs.network
          (evmRpcUrlFor (mkX402Config env) reqs.network), NetEvent.invokeVerify]) ∧
    (ext.SupportedEVMNetworks.contains reqs.network = false →
      ext.SupportedSVMNetworks.contains reqs.network = true →
      env.SVM_PRIVATE_KEY ≠ "" →
      (postVerify ext env body).2 =
        [NetEvent.provisionSigner reqs.network env.SVM_PRIVATE_KEY none] ∨
      (postVerify ext env body).2 =
        [NetEvent.provisionSigner reqs.network env.SVM_PRIVATE_KEY none,
         NetEvent.invokeVerify]) := by
  rw [postVerify_parse_ok ext env body reqs payload hreq hpay]
  constructor
  · intro hin hkey
    unfold verifyDispatch
    rw [hin, if_neg hkey]
    cases hc : ext.createConnectedClient reqs.network
        (evmRpcUrlFor (mkX402Config env) reqs.network) with
    | error e => simp [hc]
    | ok client =>
      cases hv : ext.verify (.inr client) payload reqs (mkX402Config env) with
      | error e => simp [hc, hv]
      | ok r => simp [hc, hv]
  · intro hout hin hkey
    unfold verifyDispatch
    rw [hout, hin, if_neg hkey]
    cases hc : ext.createSigner reqs.network env.SVM_PRIVATE_KEY none with
    | error e => simp [hc]
    | ok signer =>
      cases hv : ext.verify (.inl signer) payload reqs (mkX402Config env) with
      | error e => simp [hc, hv]
      | ok r => simp [hc, hv]

/-- Witness for the amended C1 at a concrete EVM verify request. -/
theorem c1_verify_provisioning_witness :
    (postVerify extDemo envBoth ⟨"pay", "evmReq"⟩).2 =
      [NetEvent.provisionClient "sepolia"
        (evmRpcUrlFor (mkX402Config envBoth) "sepolia")] ∨
    (postVerify extDemo envBoth ⟨"pay", "evmReq"⟩).2 =
      [NetEvent.provisionClient "sepolia"
        (evmRpcUrlFor (mkX402Config envBoth) "sepolia"), NetEvent.invokeVerify] :=
  (c1_verify_provisioning extDemo envBoth ⟨"pay", "evmReq"⟩
    ⟨"sepolia", "exact", "evmReq"⟩ ⟨"pay"⟩ rfl rfl).1 rfl (by decide)

/-! ### C8: RPC endpoint overrides in provisioning -/

/-- C8 counterexample: with a custom SVM RPC endpoint configured
(SVM_RPC_URL set, visible in the constructed config), a verify and a settle
request for the supported SVM network "solana-devnet" still provision their
signer with no RPC URL argument: the override is not handed to the
provisioning step. -/
theorem c8_counterexample :
    mkX402Config envSvmRpc = some ⟨some ⟨"http://custom-svm:8899"⟩, none⟩ ∧
    (postVerify extDemo envSvmRpc ⟨"pay", "svmReq"⟩).2 =
      [NetEvent.provisionSigner "solana-devnet" "svmkey" none,
       NetEvent.invokeVerify] ∧
    (postSettle extDemo envSvmRpc ⟨"pay", "svmReq"⟩).2 =
      [NetEvent.provisionSigner "solana-devnet" "svmkey" none,
       NetEvent.invokeSettle] :=
  ⟨rfl, rfl, rfl⟩

/-- The per-network override the dispatchers consult resolves "sepolia" to
the configured Sepolia URL exactly when one is set. -/
theorem evmRpcUrlFor_sepolia (env : Env) :
    evmRpcUrlFor (mkX402Config env) "sepolia" =
      if env.SEPOLIA_RPC_URL = "" then none else some env.SEPOLIA_RPC_URL := by
  unfold mkX402Config evmRpcUrlFor
  by_cases h1 : env.SEPOLIA_RPC_URL = "" <;>
    by_cases h2 : env.FILECOIN_CALIBRATION_RPC_URL = "" <;>
      by_cases h3 : env.SVM_RPC_URL = "" <;>
        simp [h1, h2, h3, List.lookup]

/-- The per-network override resolves "filecoin-calibration" to the
configured Filecoin Calibration URL exactly when one is set. -/
theorem evmRpcUrlFor_filecoin_calibration (env : Env) :
    evmRpcUrlFor (mkX402Config env) "filecoin-calibration" =
      if env.FILECOIN_CALIBRATION_RPC_URL = "" then none
      else some env.FILECOIN_CALIBRATION_RPC_URL := by
  unfold mkX402Config evmRpcUrlFor
  by_cases h1 : env.SEPOLIA_RPC_URL = "" <;>
    by_cases h2 : env.FILECOIN_CALIBRATION_RPC_URL = "" <;>
      by_cases h3 : env.SVM_RPC_URL = "" <;>
        simp [h1, h2, h3, List.lookup]

/-- C8 amended: on supported EVM networks, provisioning (a read client for
verify, a signer for settle) receives the per-network override from the
config, which maps "sepolia" and "filecoin-calibration" to their configured
URLs and every other network to none (default resolution); on supported SVM
networks, provisioning always receives no RPC URL argument, even when
SVM_RPC_URL is configured — the SVM override travels only inside the config
object passed to the external verify and settle operations. -/
theorem c8_rpc_override (ext : Externals) (env : Env) (body : RequestBody)
    (reqs : PaymentRequirements) (payload : PaymentPayload)
    (hreq : ext.parsePaymentRequirements body.paymentRequirements = .ok reqs)
    (hpay : ext.parsePaymentPayload body.paymentPayload = .ok payload) :
    (evmRpcUrlFor (mkX402Config env) "sepolia" =
      if env.SEPOLIA_RPC_URL = "" then none else some env.SEPOLIA_RPC_URL) ∧
    (evmRpcUrlFor (mkX402Config env) "filecoin-calibration" =
      if env.FILECOIN_CALIBRATION_RPC_URL = "" then none
      else some env.FILECOIN_CALIBRATION_RPC_URL) ∧
    (ext.SupportedEVMNetworks.contains reqs.network = true →
      env.EVM_PRIVATE_KEY ≠ "" →
      (postVerify ext env body).2.head? =
        some (NetEvent.provisionClient reqs.network
          (evmRpcUrlFor (mkX402Config env) reqs.network)) ∧
      (postSettle ext env body).2.head? =
        some (NetEvent.provisionSigner reqs.network env.EVM_PRIVATE_KEY
          (evmRpcUrlFor (mkX402Config env) reqs.network))) ∧
    (ext.SupportedEVMNetworks.contains reqs.network = false →
      ext.SupportedSVMNetworks.contains reqs.network = true →
      env.SVM_PRIVATE_KEY ≠ "" →
      (postVerify ext env body).2.head? =
        some (NetEvent.provisionSigner reqs.network env.SVM_PRIVATE_KEY none) ∧
      (postSettle ext env body).2.head? =
        some (NetEvent.provisionSigner reqs.network env.SVM_PRIVATE_KEY none)) := by
  rw [postVerify_parse_ok ext env body reqs payload hreq hpay,
    postSettle_parse_ok ext env body reqs payload hreq hpay]
  refine ⟨evmRpcUrlFor_sepolia env, evmRpcUrlFor_filecoin_calibration env, ?_, ?_⟩
  · intro hin hkey
    unfold verifyDispatch settleDispatch
    rw [hin]
    simp only [if_neg hkey]
    constructor
    · cases hc : ext.createConnectedClient reqs.network
          (evmRpcUrlFor (mkX402Config env) reqs.network) with
      | error e => simp [hc]
      | ok client =>
        cases hv : ext.verify (.inr client) payload reqs (mkX402Config env) with
        | error e => simp [hc, hv]
        | ok r => simp [hc, hv]
    · cases hc : ext.createSigner reqs.network env.EVM_PRIVATE_KEY
          (evmRpcUrlFor (mkX402Config env) reqs.network) with
      | error e => simp [hc]
      | ok signer =>
        cases hv : ext.settle signer payload reqs (mkX402Config env) with
        | error e => simp [hc, hv]
        | ok r => simp [hc, hv]
  · intro hout hin hkey
    unfold verifyDispatch settleDispatch
    rw [hout, hin]
    simp only [if_neg hkey]
    constructor
    · cases hc : ext.createSigner reqs.network env.SVM_PRIVATE_KEY none with
      | error e => simp [hc]
      | ok signer =>
        cases hv : ext.verify (.inl signer) payload reqs (mkX402Config env) with
        | error e => simp [hc, hv]
        | ok r => simp [hc, hv]
    · cases hc : ext.createSigner reqs.network env.SVM_PRIVATE_KEY none with
      | error e => simp [hc]
      | ok signer =>
        cases hv : ext.settle signer payload reqs (mkX402Config env) with
        | error e => simp [hc, hv]
        | ok r => simp [hc, hv]

/-- Witness for the amended C8: with a Sepolia override configured, the
concrete EVM verify and settle requests provision with that URL. -/
theorem c8_rpc_override_witness :
    (postVerify extDemo envFull ⟨"pay", "evmReq"⟩).2.head? =
      some (NetEvent.provisionClient "sepolia"
        (evmRpcUrlFor (mkX402Config envFull) "sepolia")) ∧
    (postSettle extDemo envFull ⟨"pay", "evmReq"⟩).2.head? =
      some (NetEvent.provisionSigner "sepolia" "evmkey"
        (evmRpcUrlFor (mkX402Config envFull) "sepolia")) :=
  (c8_rpc_override extDemo envFull ⟨"pay", "evmReq"⟩
    ⟨"sepolia", "exact", "evmReq"⟩ ⟨"pay"⟩ rfl rfl).2.2.1 rfl (by decide)

/-! ### C9: exception normalization -/

/-- Every POST /verify dispatch outcome carries status 200, 400 or 503: the
handler always produces a response, so no per-request failure escapes it. -/
theorem verifyDispatch_status (ext : Externals) (env : Env)
    (reqs : PaymentRequirements) (payload : PaymentPayload) :
    (verifyDispatch ext env reqs payload).1.status = 200 ∨
    (verifyDispatch ext env reqs payload).1.status = 400 ∨
    (verifyDispatch ext env reqs payload).1.status = 503 := by
  unfold verifyDispatch
  split
  · split
    · simp
    · cases hc : ext.createConnectedClient reqs.network
          (evmRpcUrlFor (mkX402Config env) reqs.network) with
      | error e => simp [hc]
      | ok client =>
        cases hv : ext.verify (.inr client) payload reqs (mkX402Config env) with
        | error e => simp [hc, hv]
        | ok r => simp [hc, hv]
  · split
    · split
      · simp
      · cases hc : ext.createSigner reqs.network env.SVM_PRIVATE_KEY none with
        | error e => simp [hc]
        | ok signer =>
          cases hv : ext.verify (.inl signer) payload reqs (mkX402Config env) with
          | error e => simp [hc, hv]
          | ok r => simp [hc, hv]
    · simp

/-- Every POST /settle dispatch outcome carries status 200, 400 or 503. -/
theorem settleDispatch_status (ext : Externals) (env : Env)
    (reqs : PaymentRequirements) (payload : PaymentPayload) :
    (settleDispatch ext env reqs payload).1.status = 200 ∨
    (settleDispatch ext env reqs payload).1.status = 400 ∨
    (settleDispatch ext env reqs payload).1.status = 503 := by
  unfold settleDispatch
  split
  · split
    · simp
    · cases hc : ext.createSigner reqs.network env.EVM_PRIVATE_KEY
          (evmRpcUrlFor (mkX402Config env) reqs.network) with
      | error e => simp [hc]
      | ok signer =>
        cases hv : ext.settle signer payload reqs (mkX402Config env) with
        | error e => simp [hc, hv]
        | ok r => simp [hc, hv]
  · split
    · split
      · simp
      · cases hc : ext.createSigner reqs.network env.SVM_PRIVATE_KEY none with
        | error e => simp [hc]
        | ok signer =>
          cases hv : ext.settle signer payload reqs (mkX402Config env) with
          | error e => simp [hc, hv]
          | ok r => simp [hc, hv]
    · simp

/-- C9: every exception raised during provisioning or during the external
verify or settle invocation is caught and surfaced as HTTP 400 with body
error equal to the underlying Error message only — the conclusion mentions
the message m but not the stack s, so the stack never reaches the response —
and both handlers always answer with one of the statuses 200, 400 or 503,
never crashing on a per-request failure. -/
theorem c9_error_normalization (ext : Externals) (env : Env) (body : RequestBody)
    (reqs : PaymentRequirements) (payload : PaymentPayload) (m s : String)
    (hreq : ext.parsePaymentRequirements body.paymentRequirements = .ok reqs)
    (hpay : ext.parsePaymentPayload body.paymentPayload = .ok payload) :
    (ext.SupportedEVMNetworks.contains reqs.network = true →
      env.EVM_PRIVATE_KEY ≠ "" →
      (ext.createConnectedClient reqs.network
          (evmRpcUrlFor (mkX402Config env) reqs.network) = .error (.errorObj m s) →
        (postVerify ext env body).1 = ⟨400, .errorBody m⟩) ∧
      (∀ client : ConnectedClient,
        ext.createConnectedClient reqs.network
          (evmRpcUrlFor (mkX402Config env) reqs.network) = .ok client →
        ext.verify (.inr client) payload reqs (mkX402Config env) =
          .error (.errorObj m s) →
        (postVerify ext env body).1 = ⟨400, .errorBody m⟩) ∧
      (ext.createSigner reqs.network env.EVM_PRIVATE_KEY
          (evmRpcUrlFor (mkX402Config env) reqs.network) = .error (.errorObj m s) →
        (postSettle ext env body).1 = ⟨400, .errorBody m⟩) ∧
      (∀ signer : Signer,
        ext.createSigner reqs.network env.EVM_PRIVATE_KEY
          (evmRpcUrlFor (mkX402Config env) reqs.network) = .ok signer →
        ext.settle signer payload reqs (mkX402Config env) = .error (.errorObj m s) →
        (postSettle ext env body).1 = ⟨400, .errorBody m⟩)) ∧
    (ext.SupportedEVMNetworks.contains reqs.network = false →
      ext.SupportedSVMNetworks.contains reqs.network = true →
      env.SVM_PRIVATE_KEY ≠ "" →
      (ext.createSigner reqs.network env.SVM_PRIVATE_KEY none =
          .error (.errorObj m s) →
        (postVerify ext env body).1 = ⟨400, .errorBody m⟩ ∧
        (postSettle ext env body).1 = ⟨400, .errorBody m⟩) ∧
      (∀ signer : Signer,
        ext.createSigner reqs.network env.SVM_PRIVATE_KEY none = .ok signer →
        (ext.verify (.inl signer) payload reqs (mkX402Config env) =
            .error (.errorObj m s) →
          (postVerify ext env body).1 = ⟨400, .errorBody m⟩) ∧
        (ext.settle signer payload reqs (mkX402Config env) =
            .error (.errorObj m s) →
          (postSettle ext env body).1 = ⟨400, .errorBody m⟩))) ∧
    ((postVerify ext env body).1.status = 200 ∨
     (postVerify ext env body).1.status = 400 ∨
     (postVerify ext env body).1.status = 503) ∧
    ((postSettle ext env body).1.status = 200 ∨
     (postSettle ext env body).1.status = 400 ∨
     (postSettle ext env body).1.status = 503) := by
  rw [postVerify_parse_ok ext env body reqs payload hreq hpay,
    postSettle_parse_ok ext env body reqs payload hreq hpay]
  refine ⟨?_, ?_, verifyDispatch_status ext env reqs payload,
    settleDispatch_status ext env reqs payload⟩
  · intro hin hkey
    unfold verifyDispatch settleDispatch
    rw [hin]
    simp only [if_neg hkey]
    refine ⟨?_, ?_, ?_, ?_⟩
    · intro hc
      simp [hc, JsThrown.messageOr]
    · intro client hc hv
      simp [hc, hv, JsThrown.messageOr]
    · intro hc
      simp [hc, JsThrown.messageOr]
    · intro signer hc hv
      simp [hc, hv, JsThrown.messageOr]
  · intro hout hin hkey
    unfold verifyDispatch settleDispatch
    rw [hout, hin]
    simp only [if_neg hkey]
    refine ⟨?_, ?_⟩
    · intro hc
      simp [hc, JsThrown.messageOr]
    · intro signer hc
      refine ⟨?_, ?_⟩
      · intro hv
        simp [hc, hv, JsThrown.messageOr]
      · intro hv
        simp [hc, hv, JsThrown.messageOr]

/-- Externals in which the external verify operation throws an Error whose
stack carries internal detail that must not reach the caller. -/
def extVerifyThrows : Externals :=
  { extDemo with verify := (fun _ _ _ _ =>
      Except.error (JsThrown.errorObj "invalid signature" "secret internal stack")) }

/-- Witness for C9: with an external verify operation that throws an Error
carrying a message and a stack, the concrete verify request answers 400 with
the message alone. -/
theorem c9_error_normalization_witness :
    (postVerify extVerifyThrows envBoth ⟨"pay", "evmReq"⟩).1 =
      ⟨400, .errorBody "invalid signature"⟩ :=
  ((c9_error_normalization extVerifyThrows envBoth ⟨"pay", "evmReq"⟩
      ⟨"sepolia", "exact", "evmReq"⟩ ⟨"pay"⟩
      "invalid signature" "secret internal stack" rfl rfl).1 rfl
      (by decide)).2.1 ⟨"sepolia"⟩ rfl rfl

/-! ### C6: capability announcement when signer derivation throws -/

/-- Externals in which signer creation throws. -/
def extSignerThrows : Externals :=
  { extDemo with createSigner := (fun _ _ _ =>
      Except.error (JsThrown.errorObj "RPC unreachable" "stack3")) }

/-- C6 counterexample: with the SVM credential configured and signer
creation throwing, GET /supported does not succeed with the SVM entries
omitted — the exception escapes the handler, and no response is produced. -/
theorem c6_counterexample :
    getSupported extSignerThrows envBoth =
      .error (.errorObj "RPC unreachable" "stack3") ∧
    (getSupported extSignerThrows envBoth).toOption = none :=
  ⟨rfl, rfl⟩

/-- C6 amended: the GET /supported handler has no try/catch, so when the
SVM credential is configured and signer creation throws, the announcement
as a whole fails with that exception instead of succeeding with the SVM
entries omitted. -/
theorem c6_supported_signer_throw (ext : Externals) (env : Env) (e : JsThrown)
    (hkey : env.SVM_PRIVATE_KEY ≠ "")
    (hthrow : ext.createSigner "solana-devnet" env.SVM_PRIVATE_KEY none = .error e) :
    getSupported ext env = .error e := by
  simp [getSupported, hkey, hthrow]

/-- Witness for the amended C6 at a concrete throwing signer creation. -/
theorem c6_supported_signer_throw_witness :
    getSupported extSignerThrows envBoth =
      .error (.errorObj "RPC unreachable" "stack3") :=
  c6_supported_signer_throw extSignerThrows envBoth
    (.errorObj "RPC unreachable" "stack3") (by decide) rfl

/-! ### C7: announcement only for credentialed families -/

/-- The EVM-family network identifiers that GET /supported can announce. -/
def evmAnnouncedNetworks : List String :=
  ["sepolia", "base-sepolia", "base", "mainnet", "polygon", "avalanche",
   "filecoin", "filecoin-calibration"]

/-- The SVM-family network identifiers that GET /supported can announce. -/
def svmAnnouncedNetworks : List String := ["solana-devnet", "solana"]

/-- C7: whenever GET /supported returns a kinds list, every entry whose
network is an EVM-family identifier requires the EVM private key to be
configured, and every entry whose network is an SVM-family identifier
requires the SVM private key to be configured. -/
theorem c7_supported_requires_credentials (ext : Externals) (env : Env)
    (resp : HttpResponse) (kinds : List SupportedPaymentKind)
    (hok : getSupported ext env = .ok resp)
    (hbody : resp.body = .supportedBody kinds) :
    (∀ k ∈ kinds, k.network ∈ evmAnnouncedNetworks → env.EVM_PRIVATE_KEY ≠ "") ∧
    (∀ k ∈ kinds, k.network ∈ svmAnnouncedNetworks → env.SVM_PRIVATE_KEY ≠ "") := by
  by_cases hSvm : env.SVM_PRIVATE_KEY = ""
  · simp only [getSupported, hSvm, ne_eq, not_true_eq_false, if_false,
      Except.ok.injEq] at hok
    subst hok
    by_cases hEvm : env.EVM_PRIVATE_KEY = ""
    · simp only [hEvm, ne_eq, not_true_eq_false, if_false] at hbody
      simp only [RespBody.supportedBody.injEq] at hbody
      subst hbody
      simp
    · simp only [hEvm, ne_eq, not_false_eq_true, if_true] at hbody
      simp only [RespBody.supportedBody.injEq] at hbody
      subst hbody
      constructor
      · intro k hk hmem
        exact hEvm
      · intro k hk hmem
        exfalso
        fin_cases hk <;> revert hmem <;> decide
  · simp only [getSupported, hSvm, ne_eq, not_false_eq_true, if_true] at hok
    cases hc : ext.createSigner "solana-devnet" env.SVM_PRIVATE_KEY none with
    | error e =>
      rw [hc] at hok
      simp at hok
    | ok signer =>
      rw [hc] at hok
      simp only [Except.ok.injEq] at hok
      subst hok
      simp only [RespBody.supportedBody.injEq] at hbody
      subst hbody
      constructor
      · intro k hk hmem
        intro hEvm
        rw [List.mem_append] at hk
        rcases hk with hk | hk
        · simp only [hEvm, ne_eq, not_true_eq_false, if_false] at hk
          simp at hk
        · have hnet : k.network = "solana-devnet" ∨ k.network = "solana" := by
            simp only [List.mem_cons, List.not_mem_nil, or_false] at hk
            rcases hk with hk | hk <;> subst hk <;> simp
          rcases hnet with h | h <;> rw [h] at hmem <;>
            exact absurd hmem (by decide)
      · intro k hk hmem
        exact hSvm

/-- The announcement produced for the demo Externals when both credentials
are configured. -/
def demoKinds : List SupportedPaymentKind :=
  evmSupportedKinds ++
    [⟨1, "exact", "solana-devnet", some ⟨some "addr-solana-devnet"⟩⟩,
     ⟨1, "exact", "solana", some ⟨some "addr-solana-devnet"⟩⟩]

/-- Witness for C7: on the concrete announcement with both credentials
configured, an announced EVM network forces the EVM key to be set and an
announced SVM network forces the SVM key to be set. -/
theorem c7_supported_requires_credentials_witness :
    envBoth.EVM_PRIVATE_KEY ≠ "" ∧ envBoth.SVM_PRIVATE_KEY ≠ "" := by
  have h := c7_supported_requires_credentials extDemo envBoth
    ⟨200, .supportedBody demoKinds⟩ demoKinds rfl rfl
  exact ⟨h.1 ⟨1, "exact", "sepolia", none⟩ (by decide) (by decide),
    h.2 ⟨1, "exact", "solana", some ⟨some "addr-solana-devnet"⟩⟩
      (by decide) (by decide)⟩

/-! ### C5 and C10: health aggregation -/

/-- Unrolling of the /health/rpc EVM loop: folding the per-network probe
over the configured URL list, from any accumulator, appends one entry per
network with a nonempty URL, each computed by that network's own probe. -/
theorem evm_foldl_checks (ext : Externals) (l : List (String × String))
    (acc : List (String × CheckEntry)) :
    l.foldl (fun checks p =>
      if p.2 = "" then checks else checks ++ [(p.1, evmProbe ext p.1 p.2)]) acc =
    acc ++ (l.filter fun p => decide (p.2 ≠ "")).map
      (fun p => (p.1, evmProbe ext p.1 p.2)) := by
  induction l generalizing acc with
  | nil => simp
  | cons hd tl ih =>
    by_cases h : hd.2 = ""
    · simp [List.foldl_cons, List.filter_cons, h, ih]
    · simp [List.foldl_cons, List.filter_cons, h, ih]

/-- Under a constructed config with an evmConfig and a configured EVM key,
the EVM checks are exactly the probe entries for the nonempty URLs. -/
theorem evmHealthChecks_eq (ext : Externals) (env : Env) (cfg : X402Config)
    (ec : EvmConfig) (hc : mkX402Config env = some cfg)
    (he : cfg.evmConfig = some ec) (hk : env.EVM_PRIVATE_KEY ≠ "") :
    evmHealthChecks ext env =
      (ec.rpcUrls.filter fun p => decide (p.2 ≠ "")).map
        (fun p => (p.1, evmProbe ext p.1 p.2)) := by
  simp only [evmHealthChecks, hc, he]
  rw [if_pos hk, evm_foldl_checks]
  simp

/-- C5: every configured EVM network with a nonempty URL has its own probe
entry recorded in the checks map, so one probe cannot abort or alter the
others; a throwing probe is recorded as an unhealthy entry carrying the
error message, both for EVM networks and for the SVM check; and the
response reports status 200 with body status "healthy" exactly when every
recorded entry is healthy, and status 503 with body status "degraded"
otherwise. -/
theorem c5_health_aggregation (ext : Externals) (env : Env) (cfg : X402Config)
    (ec : EvmConfig) (hc : mkX402Config env = some cfg)
    (he : cfg.evmConfig = some ec) (hk : env.EVM_PRIVATE_KEY ≠ "") :
    (∀ p ∈ ec.rpcUrls, p.2 ≠ "" →
      (p.1, evmProbe ext p.1 p.2) ∈ healthChecks ext env) ∧
    (∀ n u m s, ext.createConnectedClient n (some u) = .error (.errorObj m s) →
      evmProbe ext n u = ⟨false, some (ext.elapsedMs n), some m⟩) ∧
    (∀ m s, env.SVM_RPC_URL ≠ "" → env.SVM_PRIVATE_KEY ≠ "" →
      ext.createSigner "solana-devnet" env.SVM_PRIVATE_KEY none =
        .error (.errorObj m s) →
      ("solana-devnet",
        (⟨false, some (ext.elapsedMs "solana-devnet"), some m⟩ : CheckEntry)) ∈
        healthChecks ext env) ∧
    ((getHealthRpc ext env).status = 200 ↔
      ((healthChecks ext env).all fun c => c.2.healthy) = true) ∧
    ((getHealthRpc ext env).status = 200 →
      (getHealthRpc ext env).body = .healthBody "healthy" (healthChecks ext env)) ∧
    ((getHealthRpc ext env).status ≠ 200 →
      (getHealthRpc ext env).status = 503 ∧
      (getHealthRpc ext env).body =
        .healthBody "degraded" (healthChecks ext env)) := by
  refine ⟨?_, ?_, ?_, ?_, ?_, ?_⟩
  · intro p hp hp2
    unfold healthChecks
    rw [List.mem_append]
    left
    rw [evmHealthChecks_eq ext env cfg ec hc he hk]
    exact List.mem_map.mpr ⟨p, List.mem_filter.mpr ⟨hp, by simpa using hp2⟩, rfl⟩
  · intro n u m s h
    unfold evmProbe
    rw [h]
    exact rfl
  · intro m s h1 h2 h3
    unfold healthChecks
    rw [List.mem_append]
    right
    unfold svmHealthCheck
    rw [if_pos ⟨h1, h2⟩, h3]
    simp [JsThrown.messageOr]
  · simp only [getHealthRpc]
    by_cases hall : ((healthChecks ext env).all fun c => c.2.healthy) = true
    · simp [hall]
    · simp [hall]
  · simp only [getHealthRpc]
    by_cases hall : ((healthChecks ext env).all fun c => c.2.healthy) = true
    · simp [hall]
    · simp [hall]
  · simp only [getHealthRpc]
    by_cases hall : ((healthChecks ext env).all fun c => c.2.healthy) = true
    · simp [hall]
    · simp [hall]

/-- Witness for C5 at a configured Sepolia URL: the Sepolia probe entry is
in the checks map, and the aggregate status is 200 exactly when every
recorded entry is healthy. -/
theorem c5_health_aggregation_witness :
    ("sepolia", evmProbe extDemo "sepolia" "http://sepolia-rpc") ∈
      healthChecks extDemo envFull ∧
    ((getHealthRpc extDemo envFull).status = 200 ↔
      ((healthChecks extDemo envFull).all fun c => c.2.healthy) = true) := by
  have h := c5_health_aggregation extDemo envFull
    ⟨some ⟨"http://svm-rpc"⟩, some ⟨[("sepolia", "http://sepolia-rpc")]⟩⟩
    ⟨[("sepolia", "http://sepolia-rpc")]⟩ rfl rfl (by decide)
  exact ⟨h.1 ("sepolia", "http://sepolia-rpc") (by decide) (by decide),
    h.2.2.2.1⟩

/-- C10: when no EVM probe can run (no EVM RPC URL configured, or no EVM
key) and no SVM probe can run (no SVM RPC URL, or no SVM key),
GET /health/rpc reports status 200 with body status "healthy" and an empty
checks map: the all-probes-healthy verdict is vacuously true. -/
theorem c10_health_no_probes (ext : Externals) (env : Env)
    (hevm : (env.SEPOLIA_RPC_URL = "" ∧ env.FILECOIN_CALIBRATION_RPC_URL = "") ∨
      env.EVM_PRIVATE_KEY = "")
    (hsvm : env.SVM_RPC_URL = "" ∨ env.SVM_PRIVATE_KEY = "") :
    getHealthRpc ext env = ⟨200, .healthBody "healthy" []⟩ := by
  have hev : evmHealthChecks ext env = [] := by
    unfold evmHealthChecks mkX402Config
    rcases hevm with ⟨h1, h2⟩ | h
    · by_cases h3 : env.SVM_RPC_URL = "" <;> simp [h1, h2, h3]
    · by_cases h1 : env.SEPOLIA_RPC_URL = "" <;>
        by_cases h2 : env.FILECOIN_CALIBRATION_RPC_URL = "" <;>
          by_cases h3 : env.SVM_RPC_URL = "" <;> simp [h1, h2, h3, h]
  have hsv : svmHealthCheck ext env = [] := by
    unfold svmHealthCheck
    rcases hsvm with h | h <;> simp [h]
  simp [getHealthRpc, healthChecks, hev, hsv]

/-- Witness for C10: only the EVM key configured, no RPC URL at all. -/
theorem c10_health_no_probes_witness :
    getHealthRpc extDemo envEvmOnly = ⟨200, .healthBody "healthy" []⟩ :=
  c10_health_no_probes extDemo envEvmOnly (Or.inl ⟨rfl, rfl⟩) (Or.inl rfl)
